import Mathlib

/-!
Shallow embedding of the client-side chat session and job-orchestration
subsystem of Talk2Data: the `chatReducer` state container
(web/src/contexts/ChatContext.tsx), the `useChat` hook operations
(fetchHistory, selectConversation, createNewConversation,
deleteConversation, startPolling, sendMessage), and the wire-to-UI
message formatter `convertApiMessage` (web/src/types/chat.ts).

Asynchronous API calls are modelled by passing their results
(`Except Unit α`, where `Except.error` stands for a thrown transport
error) as explicit arguments; each operation is the atomic state
transformation the single-threaded event loop performs when the
operation runs to completion.  Browser timers (`window.setInterval` /
`window.clearInterval`) are modelled by a `TimerSystem` that tracks the
set of currently registered interval handles, and the two `useRef`
cells of the hook (`pollingIntervalRef`, `newConversationIdRef`) are
explicit fields of the `World` state.  The locale-dependent builtin
`Date.toLocaleTimeString` is an environment parameter `lt`.
-/

/-- Conversation list item (types/chat.ts, `Conversation`). -/
structure Conversation where
  id : Int
  title : String
  created_at : String
  updated_at : String
deriving DecidableEq, Repr

/-- Wire message returned by the backend (types/chat.ts, `ApiMessageType`).
`Option` models `| null` fields. -/
structure ApiMessageType where
  id : Int
  conversation_id : Int
  user_id : Option Int
  content : String
  content_type : Option String
  file_path : Option String
  timestamp : String
  is_from_user : Bool
deriving DecidableEq, Repr

/-- UI message (types/chat.ts, `MessageType`).  The optional fields
`contentType?`, `filePath?` and `error?: string | null` are modelled as
`Option`, with `none` standing for both `undefined` and `null` (the UI
reads both as absence). -/
structure MessageType where
  id : String
  content : String
  isUser : Bool
  timestamp : String
  contentType : Option String
  filePath : Option String
  error : Option String
deriving DecidableEq, Repr

/-- Job progress (types/chat.ts, `ProgressStatus`). -/
structure ProgressStatus where
  isActive : Bool
  progress : Int
  stage : String
deriving DecidableEq, Repr

/-- JavaScript `x || undefined` on a `string | null` value: both `null`
and the empty string (the only falsy strings) become `undefined`. -/
def jsOrUndefined (x : Option String) : Option String :=
  match x with
  | some s => if s = "" then none else some s
  | none => none

/-- types/chat.ts `convertApiMessage`: wire message to UI message.
`lt` is the environment `(s) => new Date(s).toLocaleTimeString()`. -/
def convertApiMessage (lt : String → String) (apiMessage : ApiMessageType) : MessageType :=
  { id := toString apiMessage.id
    content := apiMessage.content
    isUser := apiMessage.is_from_user
    timestamp := lt apiMessage.timestamp
    contentType := jsOrUndefined apiMessage.content_type
    filePath := jsOrUndefined apiMessage.file_path
    error := none }

/-- types/chat.ts `createUserMessage`: optimistic user echo.  `now` is
the environment `Date.now()` and `nowTime` the rendered current locale
time. -/
def createUserMessage (now : Nat) (nowTime : String) (content : String) : MessageType :=
  { id := toString now
    content := content
    isUser := true
    timestamp := nowTime
    contentType := none
    filePath := none
    error := none }

/-- types/chat.ts `createErrorMessage`. -/
def createErrorMessage (now : Nat) (nowTime : String) (errorText : String) : MessageType :=
  { id := toString (now + 1)
    content := "发生错误"
    isUser := false
    timestamp := nowTime
    contentType := some "error"
    filePath := none
    error := some errorText }

/-- ChatContext.tsx `ChatState`. -/
structure ChatState where
  conversations : List Conversation
  selectedConversationId : Option Int
  messages : List MessageType
  isLoadingHistory : Bool
  isLoadingMessages : Bool
  isSendingMessage : Bool
  currentJobId : Option String
  currentJobProgress : ProgressStatus
  error : Option String
deriving DecidableEq, Repr

/-- ChatContext.tsx `ChatAction`. -/
inductive ChatAction where
  | SET_CONVERSATIONS (payload : List Conversation)
  | SELECT_CONVERSATION (payload : Option Int)
  | SET_MESSAGES (payload : List MessageType)
  | ADD_MESSAGE (payload : MessageType)
  | SET_LOADING_HISTORY (payload : Bool)
  | SET_LOADING_MESSAGES (payload : Bool)
  | SET_SENDING_MESSAGE (payload : Bool)
  | SET_CURRENT_JOB_ID (payload : Option String)
  | SET_CURRENT_JOB_PROGRESS (payload : ProgressStatus)
  | SET_ERROR (payload : Option String)
  | CLEAR_ERROR
deriving DecidableEq, Repr

/-- ChatContext.tsx `chatReducer`. -/
def chatReducer (state : ChatState) (action : ChatAction) : ChatState :=
  match action with
  | .SET_CONVERSATIONS payload => { state with conversations := payload }
  | .SELECT_CONVERSATION payload => { state with selectedConversationId := payload }
  | .SET_MESSAGES payload => { state with messages := payload }
  | .ADD_MESSAGE payload => { state with messages := state.messages ++ [payload] }
  | .SET_LOADING_HISTORY payload => { state with isLoadingHistory := payload }
  | .SET_LOADING_MESSAGES payload => { state with isLoadingMessages := payload }
  | .SET_SENDING_MESSAGE payload => { state with isSendingMessage := payload }
  | .SET_CURRENT_JOB_ID payload => { state with currentJobId := payload }
  | .SET_CURRENT_JOB_PROGRESS payload => { state with currentJobProgress := payload }
  | .SET_ERROR payload => { state with error := payload }
  | .CLEAR_ERROR => { state with error := none }

/-- ChatContext.tsx `initialState`. -/
def initialState : ChatState :=
  { conversations := []
    selectedConversationId := none
    messages := []
    isLoadingHistory := false
    isLoadingMessages := false
    isSendingMessage := false
    currentJobId := none
    currentJobProgress := { isActive := false, progress := 0, stage := "" }
    error := none }

/-- The browser interval registry: `alive` is the set of currently
registered interval handles, `next` the next fresh handle
`window.setInterval` will return. -/
structure TimerSystem where
  alive : List Nat
  next : Nat
deriving DecidableEq, Repr

/-- `window.setInterval`: registers a repeating timer and returns its
fresh handle. -/
def setInterval (ts : TimerSystem) : Nat × TimerSystem :=
  (ts.next, { alive := ts.next :: ts.alive, next := ts.next + 1 })

/-- `window.clearInterval h`: unregisters the timer with handle `h`. -/
def clearInterval (ts : TimerSystem) (h : Nat) : TimerSystem :=
  { ts with alive := ts.alive.filter (fun x => x ≠ h) }

/-- Full client state seen by the `useChat` hook (hooks/useChat.ts):
the reducer state plus the two `useRef` cells and the timer registry. -/
structure World where
  chat : ChatState
  timers : TimerSystem
  pollingIntervalRef : Option Nat
  newConversationIdRef : Option Int
deriving DecidableEq, Repr

/-- `dispatch` as seen from the hook: folds one action into the reducer
state, leaving timers and refs untouched. -/
def dispatchW (w : World) (a : ChatAction) : World :=
  { w with chat := chatReducer w.chat a }

/-- useChat.ts `clearPolling`: if a polling interval handle is stored,
clear that interval and null the ref. -/
def clearPolling (w : World) : World :=
  match w.pollingIntervalRef with
  | some h =>
    { w with timers := clearInterval w.timers h, pollingIntervalRef := none }
  | none => w

/-- useChat.ts `fetchHistory`, run to completion with server outcome
`resp` (`Except.error` = thrown transport error). -/
def fetchHistory (w : World) (resp : Except Unit (List Conversation)) : World :=
  let w := dispatchW w (.SET_LOADING_HISTORY true)
  let w := dispatchW w (.SET_ERROR none)
  let w :=
    match resp with
    | .ok conversationsData => dispatchW w (.SET_CONVERSATIONS conversationsData)
    | .error _ => dispatchW w (.SET_ERROR (some "获取对话历史失败，请稍后再试"))
  dispatchW w (.SET_LOADING_HISTORY false)

/-- useChat.ts `selectConversation`, run to completion.  `resp` is the
outcome of `getConversationMessages id` (unused when `id` is `none`,
where the branch returns before any fetch). -/
def selectConversation (lt : String → String) (w : World) (id : Option Int)
    (resp : Except Unit (List ApiMessageType)) : World :=
  let w := dispatchW w (.SELECT_CONVERSATION id)
  match id with
  | none => dispatchW w (.SET_MESSAGES [])
  | some _ =>
    let w := dispatchW w (.SET_LOADING_MESSAGES true)
    let w := dispatchW w (.SET_ERROR none)
    let w :=
      match resp with
      | .ok messagesData =>
        dispatchW w (.SET_MESSAGES (messagesData.map (convertApiMessage lt)))
      | .error _ => dispatchW w (.SET_ERROR (some "获取对话消息失败，请稍后再试"))
    dispatchW w (.SET_LOADING_MESSAGES false)

/-- useChat.ts `createNewConversation`: cancel any active poll, then
clear selection, messages and error. -/
def createNewConversation (w : World) : World :=
  let w := clearPolling w
  let w := dispatchW w (.SELECT_CONVERSATION none)
  let w := dispatchW w (.SET_MESSAGES [])
  dispatchW w (.SET_ERROR none)

/-- useChat.ts `deleteConversation`, run to completion with server
outcome `resp`.  The optimistic removal happens before the call; the
selection/message clearing sits after the `await` inside the `try`, so
it runs only on success; the `catch` restores the saved copy of the
list. -/
def deleteConversation (w : World) (id : Int) (resp : Except Unit Unit) : World :=
  let currentConversations := w.chat.conversations
  let w1 := dispatchW w (.SET_ERROR none)
  let w2 := dispatchW w1
    (.SET_CONVERSATIONS (w.chat.conversations.filter (fun conv => conv.id ≠ id)))
  match resp with
  | .ok _ =>
    if w.chat.selectedConversationId = some id then
      let w3 := dispatchW w2 (.SELECT_CONVERSATION none)
      dispatchW w3 (.SET_MESSAGES [])
    else w2
  | .error _ =>
    let w3 := dispatchW w2 (.SET_ERROR (some "删除对话失败，请稍后再试"))
    dispatchW w3 (.SET_CONVERSATIONS currentConversations)

/-- useChat.ts `startPolling`: clear any old poll, register a new
1-second interval and store its handle.  The tick body is `pollTick`
below; the job id only flows into the tick's status request, which is
modelled by the tick's `statusResp` argument. -/
def startPolling (w : World) (_jobId : String) : World :=
  let w := clearPolling w
  let p := setInterval w.timers
  { w with timers := p.2, pollingIntervalRef := some p.1 }

/-- Response shape of `GET /jobs/{jobId}` as the tick reads it. -/
structure JobStatusResponse where
  status : String
  progress : Int
  stage : String
deriving DecidableEq, Repr

/-- Response shape of `POST /query`. -/
structure SendQueryResponse where
  job_id : String
  conversation_id : Int
deriving DecidableEq, Repr

/-- One execution of the `setInterval` callback inside useChat.ts
`startPolling`, run to completion.  `selectedId` is the value of
`selectedConversationId` captured by the callback closure; `statusResp`
is the outcome of `getJobStatus`, and `msgsResp` / `historyResp` the
outcomes of the nested `selectConversation` / `fetchHistory` calls on
the terminal branch.  Note the body runs whenever the browser fires the
callback or an in-flight tick resolves; it does not itself check
whether its interval is still the registered one. -/
def pollTick (lt : String → String) (selectedId : Option Int) (w : World)
    (statusResp : Except Unit JobStatusResponse)
    (msgsResp : Except Unit (List ApiMessageType))
    (historyResp : Except Unit (List Conversation)) : World :=
  match statusResp with
  | .ok statusResponse =>
    let w := dispatchW w (.SET_CURRENT_JOB_PROGRESS
      { isActive := true, progress := statusResponse.progress, stage := statusResponse.stage })
    if statusResponse.status = "completed" ∨ statusResponse.status = "failed"
        ∨ statusResponse.status = "error" then
      let w := clearPolling w
      let w := dispatchW w (.SET_SENDING_MESSAGE false)
      let conversationIdToLoad :=
        match w.newConversationIdRef with
        | some c => some c
        | none => selectedId
      match conversationIdToLoad with
      | some cid =>
        let w1 := selectConversation lt w (some cid) msgsResp
        let w2 :=
          if w1.newConversationIdRef = some cid then
            fetchHistory { w1 with newConversationIdRef := none } historyResp
          else w1
        dispatchW w2 (.SET_CURRENT_JOB_PROGRESS { isActive := false, progress := 0, stage := "" })
      | none =>
        dispatchW w (.SET_CURRENT_JOB_PROGRESS { isActive := false, progress := 0, stage := "" })
    else w
  | .error _ =>
    let w := clearPolling w
    let w := dispatchW w (.SET_SENDING_MESSAGE false)
    let w := dispatchW w (.SET_ERROR (some "轮询状态失败，请刷新页面再试"))
    dispatchW w (.SET_CURRENT_JOB_PROGRESS { isActive := false, progress := 0, stage := "" })

/-- useChat.ts `sendMessage`, run to completion with submit outcome
`resp`.  `now` and `nowTime` are the environment clock values used by
the synthesized messages. -/
def sendMessage (w : World) (content : String) (now : Nat) (nowTime : String)
    (resp : Except Unit SendQueryResponse) : World :=
  let w := { w with newConversationIdRef := none }
  let w := dispatchW w (.SET_SENDING_MESSAGE true)
  let w := dispatchW w (.SET_ERROR none)
  let w := dispatchW w (.ADD_MESSAGE (createUserMessage now nowTime content))
  match resp with
  | .ok response =>
    let w :=
      if w.chat.selectedConversationId = none then
        { w with newConversationIdRef := some response.conversation_id }
      else w
    let w := dispatchW w (.SET_CURRENT_JOB_ID (some response.job_id))
    startPolling w response.job_id
  | .error _ =>
    let w := dispatchW w (.SET_SENDING_MESSAGE false)
    let w := dispatchW w (.SET_ERROR (some "发送消息失败，请稍后再试"))
    dispatchW w (.ADD_MESSAGE (createErrorMessage now nowTime "发送消息失败，请稍后再试"))

/-- One user-or-environment event of the subsystem, with the API
outcomes it consumes.  `opPollTick` may occur at any point a tick
callback runs, including a stale in-flight tick after its interval was
cleared. -/
inductive Op where
  | opFetchHistory (resp : Except Unit (List Conversation))
  | opSelectConversation (id : Option Int) (resp : Except Unit (List ApiMessageType))
  | opCreateNewConversation
  | opDeleteConversation (id : Int) (resp : Except Unit Unit)
  | opSendMessage (content : String) (now : Nat) (nowTime : String)
      (resp : Except Unit SendQueryResponse)
  | opPollTick (selectedId : Option Int) (statusResp : Except Unit JobStatusResponse)
      (msgsResp : Except Unit (List ApiMessageType))
      (historyResp : Except Unit (List Conversation))
deriving Repr

/-- Interpret one event. -/
def step (lt : String → String) (w : World) : Op → World
  | .opFetchHistory resp => fetchHistory w resp
  | .opSelectConversation id resp => selectConversation lt w id resp
  | .opCreateNewConversation => createNewConversation w
  | .opDeleteConversation id resp => deleteConversation w id resp
  | .opSendMessage content now nowTime resp => sendMessage w content now nowTime resp
  | .opPollTick selectedId statusResp msgsResp historyResp =>
    pollTick lt selectedId w statusResp msgsResp historyResp

/-- Run a sequence of events. -/
def run (lt : String → String) (w : World) (ops : List Op) : World :=
  ops.foldl (step lt) w

/-- Initial client state: reducer initial state, no timers registered,
both refs null. -/
def initWorld : World :=
  { chat := initialState
    timers := { alive := [], next := 0 }
    pollingIntervalRef := none
    newConversationIdRef := none }

/-- The timer-ownership invariant: the registered intervals are exactly
the one the polling ref tracks (so their number is at most one). -/
def timerInv (w : World) : Prop :=
  w.timers.alive = w.pollingIntervalRef.toList

/-- Concrete conversation used by the closed instances below. -/
def conv7 : Conversation :=
  { id := 7, title := "对话七", created_at := "2024-01-01", updated_at := "2024-01-02" }

/-- Concrete conversation for the new-conversation scenario. -/
def conv42 : Conversation :=
  { id := 42, title := "新对话", created_at := "2024-02-01", updated_at := "2024-02-02" }

/-- Concrete UI message. -/
def msgA : MessageType :=
  { id := "1", content := "hello", isUser := true, timestamp := "10:00:00",
    contentType := none, filePath := none, error := none }

/-- Concrete wire message belonging to conversation 42. -/
def wireMsg42 : ApiMessageType :=
  { id := 9, conversation_id := 42, user_id := some 1, content := "result",
    content_type := some "dataframe", file_path := some "out.csv",
    timestamp := "2024-02-01T08:00:00Z", is_from_user := false }

/-- Concrete wire message whose content_type is the empty string. -/
def wireMsgEmptyCT : ApiMessageType :=
  { id := 3, conversation_id := 7, user_id := none, content := "hi",
    content_type := some "", file_path := none,
    timestamp := "2024-01-01T00:00:00Z", is_from_user := false }

/-- Client state with conversation 7 present and selected and one visible
message. -/
def worldSelected7 : World :=
  { chat := { initialState with
      conversations := [conv7], selectedConversationId := some 7, messages := [msgA] }
    timers := { alive := [], next := 0 }
    pollingIntervalRef := none
    newConversationIdRef := none }

/-- Client state mid-job from a draft conversation: poll timer 0 registered,
pending anchor set to conversation 42, sending flag up. -/
def worldAnchor42 : World :=
  { chat := { initialState with
      isSendingMessage := true,
      currentJobProgress := { isActive := true, progress := 60, stage := "执行查询" } }
    timers := { alive := [0], next := 1 }
    pollingIntervalRef := some 0
    newConversationIdRef := some 42 }

/-- Client state after a poll was started for job j1 and then canceled by
createNewConversation while the tick request was still in flight. -/
def staleTickWorld : World := createNewConversation (startPolling initWorld "j1")

theorem dispatchW_timers (w : World) (a : ChatAction) : (dispatchW w a).timers = w.timers := rfl

theorem dispatchW_pollRef (w : World) (a : ChatAction) :
    (dispatchW w a).pollingIntervalRef = w.pollingIntervalRef := rfl

theorem dispatchW_newRef (w : World) (a : ChatAction) :
    (dispatchW w a).newConversationIdRef = w.newConversationIdRef := rfl

theorem clearPolling_chat (w : World) : (clearPolling w).chat = w.chat := by
  cases hw : w.pollingIntervalRef <;> simp [clearPolling, hw]

theorem clearPolling_newRef (w : World) :
    (clearPolling w).newConversationIdRef = w.newConversationIdRef := by
  cases hw : w.pollingIntervalRef <;> simp [clearPolling, hw]

theorem clearPolling_pollRef (w : World) : (clearPolling w).pollingIntervalRef = none := by
  cases hw : w.pollingIntervalRef <;> simp [clearPolling, hw]

theorem timerInv_clearPolling (w : World) (h : timerInv w) : timerInv (clearPolling w) := by
  unfold timerInv at h ⊢
  cases hw : w.pollingIntervalRef with
  | none => simp [clearPolling, hw]; rw [hw] at h; simpa using h
  | some t =>
    rw [hw] at h
    simp only [Option.toList] at h
    simp [clearPolling, hw, clearInterval, h]

theorem clearPolling_alive (w : World) (h : timerInv w) : (clearPolling w).timers.alive = [] := by
  have h2 := timerInv_clearPolling w h
  unfold timerInv at h2
  rw [clearPolling_pollRef] at h2
  simpa using h2

theorem timerInv_startPolling (w : World) (j : String) (h : timerInv w) :
    timerInv (startPolling w j) := by
  unfold startPolling setInterval timerInv
  simp [clearPolling_alive w h]

theorem timerInv_fetchHistory (w : World) (resp : Except Unit (List Conversation))
    (h : timerInv w) : timerInv (fetchHistory w resp) := by
  cases resp <;> exact h

theorem timerInv_selectConversation (lt : String → String) (w : World) (id : Option Int)
    (resp : Except Unit (List ApiMessageType)) (h : timerInv w) :
    timerInv (selectConversation lt w id resp) := by
  cases id <;> cases resp <;> exact h

theorem timerInv_deleteConversation (w : World) (id : Int) (resp : Except Unit Unit)
    (h : timerInv w) : timerInv (deleteConversation w id resp) := by
  cases resp with
  | error e => exact h
  | ok u =>
    simp only [deleteConversation]
    split <;> exact h

theorem timerInv_sendMessage (w : World) (content : String) (now : Nat) (nowTime : String)
    (resp : Except Unit SendQueryResponse) (h : timerInv w) :
    timerInv (sendMessage w content now nowTime resp) := by
  cases resp with
  | error e => exact h
  | ok r =>
    simp only [sendMessage]
    split
    · exact timerInv_startPolling _ _ h
    · exact timerInv_startPolling _ _ h

theorem fetchHistory_timers (w : World) (resp : Except Unit (List Conversation)) :
    (fetchHistory w resp).timers = w.timers := by
  cases resp <;> rfl

theorem fetchHistory_pollRef (w : World) (resp : Except Unit (List Conversation)) :
    (fetchHistory w resp).pollingIntervalRef = w.pollingIntervalRef := by
  cases resp <;> rfl

theorem fetchHistory_newRef (w : World) (resp : Except Unit (List Conversation)) :
    (fetchHistory w resp).newConversationIdRef = w.newConversationIdRef := by
  cases resp <;> rfl

theorem selectConversation_timers (lt : String → String) (w : World) (id : Option Int)
    (resp : Except Unit (List ApiMessageType)) :
    (selectConversation lt w id resp).timers = w.timers := by
  cases id <;> cases resp <;> rfl

theorem selectConversation_pollRef (lt : String → String) (w : World) (id : Option Int)
    (resp : Except Unit (List ApiMessageType)) :
    (selectConversation lt w id resp).pollingIntervalRef = w.pollingIntervalRef := by
  cases id <;> cases resp <;> rfl

theorem selectConversation_newRef (lt : String → String) (w : World) (id : Option Int)
    (resp : Except Unit (List ApiMessageType)) :
    (selectConversation lt w id resp).newConversationIdRef = w.newConversationIdRef := by
  cases id <;> cases resp <;> rfl

theorem setNewRef_timers (w : World) (x : Option Int) :
    ({ w with newConversationIdRef := x } : World).timers = w.timers := rfl

theorem setNewRef_pollRef (w : World) (x : Option Int) :
    ({ w with newConversationIdRef := x } : World).pollingIntervalRef = w.pollingIntervalRef := rfl

theorem timerInv_of_cleared (w2 : World) (ht : w2.timers.alive = [])
    (hp : w2.pollingIntervalRef = none) : timerInv w2 := by
  unfold timerInv
  rw [ht, hp]
  rfl

theorem timerInv_pollTick (lt : String → String) (selectedId : Option Int) (w : World)
    (statusResp : Except Unit JobStatusResponse)
    (msgsResp : Except Unit (List ApiMessageType))
    (historyResp : Except Unit (List Conversation)) (h : timerInv w) :
    timerInv (pollTick lt selectedId w statusResp msgsResp historyResp) := by
  cases statusResp with
  | error e => exact timerInv_clearPolling w h
  | ok s =>
    simp only [pollTick]
    split
    · apply timerInv_of_cleared
      · split
        · split
          · simp only [dispatchW_timers, fetchHistory_timers, setNewRef_timers,
              selectConversation_timers]
            exact clearPolling_alive _ h
          · simp only [dispatchW_timers, selectConversation_timers]
            exact clearPolling_alive _ h
        · simp only [dispatchW_timers]
          exact clearPolling_alive _ h
      · split
        · split
          · simp only [dispatchW_pollRef, fetchHistory_pollRef, setNewRef_pollRef,
              selectConversation_pollRef]
            exact clearPolling_pollRef _
          · simp only [dispatchW_pollRef, selectConversation_pollRef]
            exact clearPolling_pollRef _
        · simp only [dispatchW_pollRef]
          exact clearPolling_pollRef _
    · exact h

theorem timerInv_step (lt : String → String) (w : World) (op : Op) (h : timerInv w) :
    timerInv (step lt w op) := by
  cases op with
  | opFetchHistory resp => exact timerInv_fetchHistory w resp h
  | opSelectConversation id resp => exact timerInv_selectConversation lt w id resp h
  | opCreateNewConversation => exact timerInv_clearPolling w h
  | opDeleteConversation id resp => exact timerInv_deleteConversation w id resp h
  | opSendMessage content now nowTime resp => exact timerInv_sendMessage w content now nowTime resp h
  | opPollTick selectedId statusResp msgsResp historyResp =>
    exact timerInv_pollTick lt selectedId w statusResp msgsResp historyResp h

theorem timerInv_run (lt : String → String) (ops : List Op) (w : World) (h : timerInv w) :
    timerInv (run lt w ops) := by
  induction ops generalizing w with
  | nil => exact h
  | cons op rest ih => exact ih (step lt w op) (timerInv_step lt w op h)

/-- C1: for every sequence of operations (sendMessage, createNewConversation,
repeated poll ticks, and the other hook operations) executed from the initial
client state, at most one poll interval timer is registered at any instant:
startPolling unconditionally clears any previous interval before registering
a new one, and createNewConversation clears the active interval before
clearing the selection, so the set of live interval handles never exceeds
one element. -/
theorem atMostOnePollTimer (lt : String → String) (ops : List Op) :
    (run lt initWorld ops).timers.alive.length ≤ 1 := by
  have h := timerInv_run lt ops initWorld rfl
  unfold timerInv at h
  rw [h]
  cases (run lt initWorld ops).pollingIntervalRef <;> simp [Option.toList]

theorem startPolling_chat (w : World) (j : String) : (startPolling w j).chat = w.chat := by
  simp only [startPolling, setInterval]
  exact clearPolling_chat w

theorem startPolling_newRef (w : World) (j : String) :
    (startPolling w j).newConversationIdRef = w.newConversationIdRef := by
  simp only [startPolling, setInterval]
  exact clearPolling_newRef w

theorem clearPolling_dispatchW_timers (w : World) (a : ChatAction) :
    (clearPolling (dispatchW w a)).timers = (clearPolling w).timers := by
  cases hw : w.pollingIntervalRef <;>
    simp [clearPolling, dispatchW, hw, clearInterval]

/-- C5: for every conversation id, after selectConversation(id) resolves
successfully against the server list msgs, the visible message list equals
exactly the element-wise formatted version of msgs — the whole list is
replaced in the one SET_MESSAGES transition, with no merge with prior or
optimistic content — and the selection is id. -/
theorem selectConversationReplacesMessages (lt : String → String) (w : World) (i : Int)
    (msgs : List ApiMessageType) :
    (selectConversation lt w (some i) (.ok msgs)).chat.messages
        = msgs.map (convertApiMessage lt)
      ∧ (selectConversation lt w (some i) (.ok msgs)).chat.selectedConversationId = some i :=
  ⟨rfl, rfl⟩

/-- C8: fetchHistory is idempotent — calling it twice in immediate succession
against the same server response yields exactly the state of a single call,
whose conversation list is the server list (no duplicates); on failure it
sets the error and leaves the previous conversation list untouched. -/
theorem fetchHistoryIdempotent (w : World) (convs : List Conversation) :
    fetchHistory (fetchHistory w (.ok convs)) (.ok convs) = fetchHistory w (.ok convs)
      ∧ (fetchHistory w (.ok convs)).chat.conversations = convs
      ∧ (fetchHistory w (.error ())).chat.conversations = w.chat.conversations
      ∧ (fetchHistory w (.error ())).chat.error = some "获取对话历史失败，请稍后再试" :=
  ⟨rfl, rfl, rfl, rfl⟩

/-- C2 counterexample: deleteConversation(7) while 7 is selected, with the
server call failing, leaves the selection at 7 and the message list nonempty
(only the list itself is rolled back), contrary to the claim that selection
and messages remain cleared despite the rollback. -/
theorem deleteRollbackSelection_counterexample :
    (deleteConversation worldSelected7 7 (.error ())).chat.conversations = [conv7]
      ∧ (deleteConversation worldSelected7 7 (.error ())).chat.selectedConversationId ≠ none
      ∧ (deleteConversation worldSelected7 7 (.error ())).chat.messages ≠ [] := by
  decide

/-- C2 amended: if deleteConversation(id) is called while id is the selected
conversation and the server call fails, the conversation list is restored
verbatim to its pre-call value and the error is set, but the selection and
the message list are left unchanged — not cleared — because the clearing
step sits after the awaited server call inside the try block and therefore
runs only when the delete succeeds (in which case selection and messages
are cleared). -/
theorem deleteConversationRollback (w : World) (id : Int)
    (hsel : w.chat.selectedConversationId = some id) :
    (deleteConversation w id (.error ())).chat.conversations = w.chat.conversations
      ∧ (deleteConversation w id (.error ())).chat.selectedConversationId = some id
      ∧ (deleteConversation w id (.error ())).chat.messages = w.chat.messages
      ∧ (deleteConversation w id (.error ())).chat.error = some "删除对话失败，请稍后再试"
      ∧ (deleteConversation w id (.ok ())).chat.selectedConversationId = none
      ∧ (deleteConversation w id (.ok ())).chat.messages = [] := by
  refine ⟨rfl, hsel, rfl, rfl, ?_, ?_⟩ <;>
    simp [deleteConversation, hsel, dispatchW, chatReducer]

theorem deleteConversationRollback_witness :
    (deleteConversation worldSelected7 7 (.error ())).chat.conversations
        = worldSelected7.chat.conversations
      ∧ (deleteConversation worldSelected7 7 (.error ())).chat.selectedConversationId = some 7
      ∧ (deleteConversation worldSelected7 7 (.error ())).chat.messages
          = worldSelected7.chat.messages
      ∧ (deleteConversation worldSelected7 7 (.error ())).chat.error
          = some "删除对话失败，请稍后再试"
      ∧ (deleteConversation worldSelected7 7 (.ok ())).chat.selectedConversationId = none
      ∧ (deleteConversation worldSelected7 7 (.ok ())).chat.messages = [] :=
  deleteConversationRollback worldSelected7 7 rfl

/-- C6 counterexample: sendMessage with the blank content string is not a
no-op — from the initial state it appends the optimistic echo of the empty
message, stores the job id returned by the submission it still performs,
and raises the sending flag. -/
theorem sendMessageBlank_counterexample :
    (sendMessage initWorld "" 0 "12:00:00"
        (.ok { job_id := "j1", conversation_id := 5 })).chat.messages
        = [createUserMessage 0 "12:00:00" ""]
      ∧ (sendMessage initWorld "" 0 "12:00:00"
          (.ok { job_id := "j1", conversation_id := 5 })).chat.currentJobId = some "j1"
      ∧ (sendMessage initWorld "" 0 "12:00:00"
          (.ok { job_id := "j1", conversation_id := 5 })).chat.isSendingMessage = true
      ∧ initWorld.chat.messages = [] := by
  decide

/-- C6 amended: sendMessage performs no blank-content screening of its own —
blank input is filtered upstream by the chat input component before
sendMessage is invoked; for every content string, blank or not, sendMessage
appends the optimistic user echo to the message list before the submission
outcome is consulted: the echo is present whatever the outcome, followed on
submission failure by the synthesized error message. -/
theorem sendMessageAppendsEcho (w : World) (content : String) (now : Nat)
    (nowTime : String) (resp : Except Unit SendQueryResponse) :
    (sendMessage w content now nowTime resp).chat.messages
      = w.chat.messages ++ [createUserMessage now nowTime content]
          ++ (match resp with
              | .ok _ => []
              | .error _ => [createErrorMessage now nowTime "发送消息失败，请稍后再试"]) := by
  cases resp with
  | ok r =>
    simp only [sendMessage, startPolling_chat]
    split <;> simp [dispatchW, chatReducer]
  | error e =>
    simp [sendMessage, dispatchW, chatReducer]

/-- C9 counterexample: the well-formed wire message whose content_type is the
empty string — an unknown contentType value — is not passed through
unchanged: the JS falsy coercion content_type || undefined turns it into an
absent field. -/
theorem convertApiMessageEmptyContentType_counterexample :
    wireMsgEmptyCT.content_type = some ""
      ∧ (convertApiMessage (fun s => s) wireMsgEmptyCT).contentType = none := by
  decide

/-- C9 amended: the wire-to-UI message formatter is a total pure function
over every well-formed wire message: it renders the timestamp with the
locale time renderer, maps contentType and filePath through the JS falsy
coercion — null and the empty string become absent, while any non-empty
value, unknown values included, passes through unchanged — copies id,
content and is_from_user, and defaults error to absent. -/
theorem convertApiMessageTotalSpec (lt : String → String) (m : ApiMessageType) :
    (convertApiMessage lt m).timestamp = lt m.timestamp
      ∧ (convertApiMessage lt m).contentType = jsOrUndefined m.content_type
      ∧ (convertApiMessage lt m).filePath = jsOrUndefined m.file_path
      ∧ (convertApiMessage lt m).error = none
      ∧ (convertApiMessage lt m).id = toString m.id
      ∧ (convertApiMessage lt m).content = m.content
      ∧ (convertApiMessage lt m).isUser = m.is_from_user
      ∧ (∀ s, m.content_type = some s → s ≠ "" →
          (convertApiMessage lt m).contentType = some s) := by
  refine ⟨rfl, rfl, rfl, rfl, rfl, rfl, rfl, ?_⟩
  intro s hs hne
  simp [convertApiMessage, jsOrUndefined, hs, hne]

theorem convertApiMessageTotalSpec_witness :
    (convertApiMessage (fun s => s) wireMsg42).contentType = some "dataframe" :=
  (convertApiMessageTotalSpec (fun s => s) wireMsg42).2.2.2.2.2.2.2 "dataframe" rfl
    (by decide)

/-- C10: sendMessage nulls the pending-anchor ref first thing, and sets it
again only when this very submission was made from the draft state
(selectedConversationId null), to the conversation id that submission
returned; hence at the moment this job begins polling the anchor is either
null or the id of this submission, never a leftover from an earlier one,
and on submission failure the anchor is null. -/
theorem pendingAnchorFreshness (w : World) (content : String) (now : Nat)
    (nowTime : String) (r : SendQueryResponse) :
    (sendMessage w content now nowTime (.ok r)).newConversationIdRef
        = (if w.chat.selectedConversationId = none then some r.conversation_id else none)
      ∧ ((sendMessage w content now nowTime (.ok r)).newConversationIdRef = none
          ∨ (sendMessage w content now nowTime (.ok r)).newConversationIdRef
              = some r.conversation_id)
      ∧ (sendMessage w content now nowTime (.error ())).newConversationIdRef = none := by
  have hok : (sendMessage w content now nowTime (.ok r)).newConversationIdRef
      = (if w.chat.selectedConversationId = none then some r.conversation_id else none) := by
    simp only [sendMessage, startPolling_newRef, dispatchW_newRef]
    by_cases hsel : w.chat.selectedConversationId = none <;>
      simp [dispatchW, chatReducer, hsel]
  refine ⟨hok, ?_, rfl⟩
  rw [hok]
  by_cases hsel : w.chat.selectedConversationId = none
  · right
    simp [hsel]
  · left
    simp [hsel]

/-- C7: a poll tick whose status fetch fails with a transport error cancels
the timer — the polling ref is nulled and no interval remains registered, so
no further ticks occur — clears the sending flag, sets the global error to a
non-empty string, and resets the job progress to inactive. -/
theorem pollTransportFailure (lt : String → String) (selectedId : Option Int) (w : World)
    (msgsResp : Except Unit (List ApiMessageType))
    (historyResp : Except Unit (List Conversation)) (hinv : timerInv w) :
    (pollTick lt selectedId w (.error ()) msgsResp historyResp).pollingIntervalRef = none
      ∧ (pollTick lt selectedId w (.error ()) msgsResp historyResp).timers.alive = []
      ∧ (pollTick lt selectedId w (.error ()) msgsResp historyResp).chat.isSendingMessage
          = false
      ∧ (pollTick lt selectedId w (.error ()) msgsResp historyResp).chat.error
          = some "轮询状态失败，请刷新页面再试"
      ∧ "轮询状态失败，请刷新页面再试" ≠ ""
      ∧ (pollTick lt selectedId w (.error ()) msgsResp historyResp).chat.currentJobProgress
          = { isActive := false, progress := 0, stage := "" } := by
  refine ⟨?_, ?_, ?_, ?_, by decide, ?_⟩
  · simp only [pollTick, dispatchW_pollRef]
    exact clearPolling_pollRef w
  · simp only [pollTick, dispatchW_timers]
    exact clearPolling_alive w hinv
  · simp [pollTick, dispatchW, chatReducer, clearPolling_chat]
  · simp [pollTick, dispatchW, chatReducer, clearPolling_chat]
  · simp [pollTick, dispatchW, chatReducer, clearPolling_chat]

theorem pollTransportFailure_witness :
    (pollTick (fun s => s) none initWorld (.error ()) (.error ())
          (.error ())).pollingIntervalRef = none
      ∧ (pollTick (fun s => s) none initWorld (.error ()) (.error ())
            (.error ())).timers.alive = []
      ∧ (pollTick (fun s => s) none initWorld (.error ()) (.error ())
            (.error ())).chat.isSendingMessage = false
      ∧ (pollTick (fun s => s) none initWorld (.error ()) (.error ())
            (.error ())).chat.error = some "轮询状态失败，请刷新页面再试"
      ∧ "轮询状态失败，请刷新页面再试" ≠ ""
      ∧ (pollTick (fun s => s) none initWorld (.error ()) (.error ())
            (.error ())).chat.currentJobProgress
          = { isActive := false, progress := 0, stage := "" } :=
  pollTransportFailure (fun s => s) none initWorld (.error ()) (.error ()) rfl

/-- C3: the tick callback in startPolling has no liveness guard — after the
poll for job j1 was canceled by createNewConversation (no interval
registered, polling ref null, progress inactive), the stale in-flight tick
response still mutates state: its dispatch makes the job progress active at
50 percent.  The spec requires that a stale tick response never mutate
state. -/
theorem staleTickMutatesState :
    staleTickWorld.pollingIntervalRef = none
      ∧ staleTickWorld.timers.alive = []
      ∧ staleTickWorld.chat.currentJobProgress
          = { isActive := false, progress := 0, stage := "" }
      ∧ (pollTick (fun s => s) none staleTickWorld
            (.ok { status := "running", progress := 50, stage := "查询中" })
            (.error ()) (.error ())).chat.currentJobProgress
          = { isActive := true, progress := 50, stage := "查询中" } := by
  decide

theorem pollTick_terminal_anchor (lt : String → String) (selectedId : Option Int)
    (w : World) (s : JobStatusResponse) (msgs : List ApiMessageType)
    (convs : List Conversation) (cid : Int)
    (hterm : s.status = "completed" ∨ s.status = "failed" ∨ s.status = "error")
    (hn : w.newConversationIdRef = some cid) :
    pollTick lt selectedId w (.ok s) (.ok msgs) (.ok convs) =
      { chat := { w.chat with
          conversations := convs,
          selectedConversationId := some cid,
          messages := msgs.map (convertApiMessage lt),
          isLoadingHistory := false,
          isLoadingMessages := false,
          isSendingMessage := false,
          currentJobProgress := { isActive := false, progress := 0, stage := "" },
          error := none }
        timers := (clearPolling w).timers
        pollingIntervalRef := none
        newConversationIdRef := none } := by
  simp only [pollTick]
  rw [if_pos hterm]
  cases hw : w.pollingIntervalRef <;>
    simp [dispatchW, chatReducer, clearPolling, clearInterval, selectConversation,
      fetchHistory, hn, hw]

theorem pollTick_terminal_selected (lt : String → String) (w : World)
    (s : JobStatusResponse) (msgs : List ApiMessageType) (convs : List Conversation)
    (i : Int)
    (hterm : s.status = "completed" ∨ s.status = "failed" ∨ s.status = "error")
    (hn : w.newConversationIdRef = none) :
    pollTick lt (some i) w (.ok s) (.ok msgs) (.ok convs) =
      { chat := { w.chat with
          selectedConversationId := some i,
          messages := msgs.map (convertApiMessage lt),
          isLoadingMessages := false,
          isSendingMessage := false,
          currentJobProgress := { isActive := false, progress := 0, stage := "" },
          error := none }
        timers := (clearPolling w).timers
        pollingIntervalRef := none
        newConversationIdRef := none } := by
  simp only [pollTick]
  rw [if_pos hterm]
  cases hw : w.pollingIntervalRef <;>
    simp [dispatchW, chatReducer, clearPolling, clearInterval, selectConversation,
      fetchHistory, hn, hw]

theorem pollTick_terminal_noLoad (lt : String → String) (w : World)
    (s : JobStatusResponse) (msgsResp : Except Unit (List ApiMessageType))
    (historyResp : Except Unit (List Conversation))
    (hterm : s.status = "completed" ∨ s.status = "failed" ∨ s.status = "error")
    (hn : w.newConversationIdRef = none) :
    pollTick lt none w (.ok s) msgsResp historyResp =
      { chat := { w.chat with
          isSendingMessage := false,
          currentJobProgress := { isActive := false, progress := 0, stage := "" } }
        timers := (clearPolling w).timers
        pollingIntervalRef := none
        newConversationIdRef := none } := by
  simp only [pollTick]
  rw [if_pos hterm]
  cases hw : w.pollingIntervalRef <;>
    simp [dispatchW, chatReducer, clearPolling, clearInterval, hn, hw]

/-- C4: when a poll tick reports a terminal status (completed, failed or
error), the timer is canceled (polling ref nulled), the sending flag is
cleared and the job progress finally resets to inactive; the message view is
loaded for the pending anchor conversation id when an anchor was set (draft
case) — and then the conversation list is also refreshed from the server and
the anchor cleared — or else for the captured currently-selected id. -/
theorem terminalTickResolution (lt : String → String) (selectedId : Option Int) (w : World)
    (s : JobStatusResponse) (msgs : List ApiMessageType) (convs : List Conversation)
    (hterm : s.status = "completed" ∨ s.status = "failed" ∨ s.status = "error") :
    (pollTick lt selectedId w (.ok s) (.ok msgs) (.ok convs)).pollingIntervalRef = none
      ∧ (pollTick lt selectedId w (.ok s) (.ok msgs) (.ok convs)).chat.isSendingMessage
          = false
      ∧ (pollTick lt selectedId w (.ok s) (.ok msgs) (.ok convs)).chat.currentJobProgress
          = { isActive := false, progress := 0, stage := "" }
      ∧ (∀ cid, w.newConversationIdRef = some cid →
          (pollTick lt selectedId w (.ok s) (.ok msgs)
                (.ok convs)).chat.selectedConversationId = some cid
            ∧ (pollTick lt selectedId w (.ok s) (.ok msgs) (.ok convs)).chat.messages
                = msgs.map (convertApiMessage lt)
            ∧ (pollTick lt selectedId w (.ok s) (.ok msgs) (.ok convs)).chat.conversations
                = convs
            ∧ (pollTick lt selectedId w (.ok s) (.ok msgs)
                  (.ok convs)).newConversationIdRef = none)
      ∧ (∀ cid, w.newConversationIdRef = none → selectedId = some cid →
          (pollTick lt selectedId w (.ok s) (.ok msgs)
                (.ok convs)).chat.selectedConversationId = some cid
            ∧ (pollTick lt selectedId w (.ok s) (.ok msgs) (.ok convs)).chat.messages
                = msgs.map (convertApiMessage lt)
            ∧ (pollTick lt selectedId w (.ok s) (.ok msgs) (.ok convs)).chat.conversations
                = w.chat.conversations) := by
  cases hn : w.newConversationIdRef with
  | some cid0 =>
    rw [pollTick_terminal_anchor lt selectedId w s msgs convs cid0 hterm hn]
    refine ⟨rfl, rfl, rfl, ?_, ?_⟩
    · intro cid hcid
      injection hcid with hc
      subst hc
      exact ⟨rfl, rfl, rfl, rfl⟩
    · intro cid h0
      exact Option.noConfusion h0
  | none =>
    cases hs2 : selectedId with
    | some i =>
      rw [pollTick_terminal_selected lt w s msgs convs i hterm hn]
      refine ⟨rfl, rfl, rfl, ?_, ?_⟩
      · intro cid hcid
        exact Option.noConfusion hcid
      · intro cid _ hcid
        injection hcid with hc
        subst hc
        exact ⟨rfl, rfl, rfl⟩
    | none =>
      rw [pollTick_terminal_noLoad lt w s (.ok msgs) (.ok convs) hterm hn]
      refine ⟨rfl, rfl, rfl, ?_, ?_⟩
      · intro cid hcid
        exact Option.noConfusion hcid
      · intro cid _ hcid
        exact Option.noConfusion hcid

theorem terminalTickResolution_witness :
    (pollTick (fun s => s) none worldAnchor42
          (.ok { status := "completed", progress := 100, stage := "完成" })
          (.ok [wireMsg42]) (.ok [conv42])).pollingIntervalRef = none
      ∧ (pollTick (fun s => s) none worldAnchor42
            (.ok { status := "completed", progress := 100, stage := "完成" })
            (.ok [wireMsg42]) (.ok [conv42])).chat.isSendingMessage = false
      ∧ (pollTick (fun s => s) none worldAnchor42
            (.ok { status := "completed", progress := 100, stage := "完成" })
            (.ok [wireMsg42]) (.ok [conv42])).chat.currentJobProgress
          = { isActive := false, progress := 0, stage := "" }
      ∧ (∀ cid, worldAnchor42.newConversationIdRef = some cid →
          (pollTick (fun s => s) none worldAnchor42
                (.ok { status := "completed", progress := 100, stage := "完成" })
                (.ok [wireMsg42]) (.ok [conv42])).chat.selectedConversationId = some cid
            ∧ (pollTick (fun s => s) none worldAnchor42
                  (.ok { status := "completed", progress := 100, stage := "完成" })
                  (.ok [wireMsg42]) (.ok [conv42])).chat.messages
                = [wireMsg42].map (convertApiMessage (fun s => s))
            ∧ (pollTick (fun s => s) none worldAnchor42
                  (.ok { status := "completed", progress := 100, stage := "完成" })
                  (.ok [wireMsg42]) (.ok [conv42])).chat.conversations = [conv42]
            ∧ (pollTick (fun s => s) none worldAnchor42
                  (.ok { status := "completed", progress := 100, stage := "完成" })
                  (.ok [wireMsg42]) (.ok [conv42])).newConversationIdRef = none)
      ∧ (∀ cid, worldAnchor42.newConversationIdRef = none → (none : Option Int) = some cid →
          (pollTick (fun s => s) none worldAnchor42
                (.ok { status := "completed", progress := 100, stage := "完成" })
                (.ok [wireMsg42]) (.ok [conv42])).chat.selectedConversationId = some cid
            ∧ (pollTick (fun s => s) none worldAnchor42
                  (.ok { status := "completed", progress := 100, stage := "完成" })
                  (.ok [wireMsg42]) (.ok [conv42])).chat.messages
                = [wireMsg42].map (convertApiMessage (fun s => s))
            ∧ (pollTick (fun s => s) none worldAnchor42
                  (.ok { status := "completed", progress := 100, stage := "完成" })
                  (.ok [wireMsg42]) (.ok [conv42])).chat.conversations
                = worldAnchor42.chat.conversations) :=
  terminalTickResolution (fun s => s) none worldAnchor42
    { status := "completed", progress := 100, stage := "完成" } [wireMsg42] [conv42]
    (Or.inl rfl)
